import Mathlib

/-!
Shallow embedding of `src/client/blindai/client.py` (BlindAI python client):
the signed-response validation procedure, the session lifecycle, and the
two-phase channel bootstrap.  External collaborators (grpc transport, DCAP
attestation verifier, protobuf payload decoders, SHA-256 and the Ed25519
signature check) are modelled as explicit parameters, so every definition
below is executable on concrete inputs.
-/

/-- Byte strings are modelled as lists of naturals. -/
abbrev Bytes := List Nat

/-- Attestation evidence, mirroring the protobuf message
`GetSgxQuoteWithCollateralReply` with fields `quote`, `collateral`,
`enclave_held_data`. -/
structure GetSgxQuoteWithCollateralReply where
  quote : Bytes
  collateral : Bytes
  enclave_held_data : Bytes
  deriving DecidableEq, Repr

/-- An Ed25519 public key, modelled by its signature-verification predicate:
`verify sig msg` is `true` exactly when the cryptographic check passes.  The
python call `key.verify(signature, payload)` raises `InvalidSignature`
exactly when this predicate is `false`. -/
structure Ed25519PublicKey where
  verify : Bytes → Bytes → Bool

/-- Expected enclave identity policy (`blindai.dcap_attestation.Policy`),
opaque at this level. -/
structure Policy where
  raw : Bytes
  deriving DecidableEq, Repr

/-- Verified claims returned by the DCAP verifier; the client only uses the
server certificate extracted from them. -/
structure AttestationClaims where
  server_cert : Bytes
  deriving DecidableEq, Repr

/-- Reply of the untrusted `GetServerInfo` call. -/
structure ServerInfo where
  version : String
  deriving DecidableEq, Repr

/-- Opaque grpc-level error (`grpc.RpcError`). -/
structure RpcErr where
  code : Nat
  deriving DecidableEq, Repr

/-- Enumeration of the acceptable tensor datum types (`ModelDatumType`). -/
inductive ModelDatumType
  | F32 | F64 | I32 | I64 | U32 | U64 | U8 | U16 | I8 | I16 | Bool
  deriving DecidableEq, Repr

/-- Byte width of each datum type, after the `dt_per_type` dictionary of the
source (client.py lines 96-108). -/
def dt_per_type : ModelDatumType → Nat
  | .F32 => 4
  | .F64 => 8
  | .I32 => 4
  | .I64 => 8
  | .U32 => 4
  | .U64 => 8
  | .U8 => 1
  | .U16 => 2
  | .I8 => 1
  | .I16 => 2
  | .Bool => 1

/-- Errors surfaced by the client, one constructor per distinct python raise
site.  The `sig*` constructors are the typed `SignatureError(...)` raises,
`invalidState` is the `ValueError("Illegal operation on closed connection.")`
raised by `raise_exception_if_conn_closed` (the error the spec taxonomy of
section 7 names `InvalidStateError`), and `attributeError` / `typeError` /
`indexError` model untyped python runtime failures that fall outside the
spec's error taxonomy. -/
inductive PyError
  | sigNotSigned
  | sigSimulationMode
  | sigInvalidSignature
  | sigInvalidModelHash
  | sigInvalidInputHash
  | sigInvalidModelId
  | attestationError
  | versionError
  | connectionError
  | fileNotFound
  | invalidState
  | attributeError
  | typeError
  | indexError
  deriving DecidableEq, Repr

/-- Whether an error is a python `SignatureError`. -/
def isSignatureError : PyError → Bool
  | .sigNotSigned | .sigSimulationMode | .sigInvalidSignature
  | .sigInvalidModelHash | .sigInvalidInputHash | .sigInvalidModelId => true
  | _ => false

/-- Whether an error belongs to the typed error taxonomy of the spec
(section 7): everything except the raw python runtime failures. -/
def inSpecTaxonomy : PyError → Bool
  | .attributeError | .typeError | .indexError => false
  | _ => true

/-- Whether a computation failed with a python `SignatureError`. -/
def exceptIsSignatureError {α : Type} : Except PyError α → Bool
  | .error e => isSignatureError e
  | .ok _ => false

/-- Whether a computation succeeded. -/
def exceptOk {ε α : Type} : Except ε α → Bool
  | .ok _ => true
  | .error _ => false

/-- The persistable artifact: `SignedResponse` holds `payload`, `signature`
and `attestation`, each optional (client.py lines 187-190). -/
structure SignedResponse where
  payload : Option Bytes := none
  signature : Option Bytes := none
  attestation : Option GetSgxQuoteWithCollateralReply := none

/-- Mirrors `SignedResponse.is_simulation_mode`: the attestation is absent. -/
def SignedResponse.is_simulation_mode (self : SignedResponse) : Bool :=
  self.attestation.isNone

/-- Mirrors `SignedResponse.is_signed`: the signature is present. -/
def SignedResponse.is_signed (self : SignedResponse) : Bool :=
  self.signature.isSome

/-- Decoded `send_model_payload` of a `Payload` protobuf message. -/
structure SendModelPayload where
  model_hash : Bytes
  model_id : String
  deriving DecidableEq, Repr

/-- Decoded `run_model_payload` of a `Payload` protobuf message. -/
structure RunModelPayload where
  input_hash : Bytes
  model_id : String
  deriving DecidableEq, Repr

/-- Server reply carrying a payload and its signature; models both
`SendModelReply` and `RunModelReply`. -/
structure PbReply where
  payload : Bytes
  signature : Bytes
  deriving DecidableEq, Repr

/-- The `{payload, signature, attestation}` record serialized by
`SignedResponse.as_bytes` (protobuf message `ResponseProof`). -/
structure ResponseProof where
  payload : Option Bytes
  signature : Option Bytes
  attestation : Option GetSgxQuoteWithCollateralReply
  deriving DecidableEq, Repr

/-- Length-prefixed encoding of a byte string, used by the modelled artifact
codec. -/
def encLen (l : Bytes) : Bytes := l.length :: l

/-- Inverse of `encLen`: reads a length header and splits off that many
bytes, returning the remainder as well. -/
def decLen : Bytes → Option (Bytes × Bytes)
  | [] => none
  | n :: rest => if n ≤ rest.length then some (rest.take n, rest.drop n) else none

/-- Tagged encoding of an optional byte string. -/
def encOptBytes : Option Bytes → Bytes
  | none => [0]
  | some l => 1 :: encLen l

/-- Inverse of `encOptBytes`. -/
def decOptBytes : Bytes → Option (Option Bytes × Bytes)
  | 0 :: rest => some (none, rest)
  | 1 :: rest =>
    match decLen rest with
    | some (l, r) => some (some l, r)
    | none => none
  | _ => none

/-- Encoding of attestation evidence as three length-prefixed fields. -/
def encAtt (a : GetSgxQuoteWithCollateralReply) : Bytes :=
  encLen a.quote ++ encLen a.collateral ++ encLen a.enclave_held_data

/-- Inverse of `encAtt`. -/
def decAtt (b : Bytes) : Option (GetSgxQuoteWithCollateralReply × Bytes) :=
  match decLen b with
  | some (q, b1) =>
    match decLen b1 with
    | some (c, b2) =>
      match decLen b2 with
      | some (e, b3) => some (⟨q, c, e⟩, b3)
      | none => none
    | none => none
  | none => none

/-- Tagged encoding of optional attestation evidence. -/
def encOptAtt : Option GetSgxQuoteWithCollateralReply → Bytes
  | none => [0]
  | some a => 1 :: encAtt a

/-- Inverse of `encOptAtt`. -/
def decOptAtt : Bytes → Option (Option GetSgxQuoteWithCollateralReply × Bytes)
  | 0 :: rest => some (none, rest)
  | 1 :: rest =>
    match decAtt rest with
    | some (a, r) => some (some a, r)
    | none => none
  | _ => none

/-- Modelled from the spec: the generated protobuf module `proof_files_pb2`
(message `ResponseProof`) is not under src/.  Section 6 of the spec describes
the persisted artifact format as a serialized `(payload, signature,
attestation)` record written as an opaque byte blob that must round-trip
exactly; this is an injective record-to-bytes encoding realising that
contract. -/
def encodeResponseProof (p : ResponseProof) : Bytes :=
  encOptBytes p.payload ++ encOptBytes p.signature ++ encOptAtt p.attestation

/-- Modelled from the spec: inverse of `encodeResponseProof`
(`ResponseProof.FromString`); fails on malformed blobs. -/
def decodeResponseProof (b : Bytes) : Option ResponseProof :=
  match decOptBytes b with
  | some (pay, b1) =>
    match decOptBytes b1 with
    | some (sg, b2) =>
      match decOptAtt b2 with
      | some (a, _) => some ⟨pay, sg, a⟩
      | none => none
    | none => none
  | none => none

/-- Mirrors `SignedResponse.as_bytes` (client.py lines 213-229): serialize
the `(payload, signature, attestation)` triple as one blob. -/
def SignedResponse.as_bytes (self : SignedResponse) : Bytes :=
  encodeResponseProof ⟨self.payload, self.signature, self.attestation⟩

/-- Mirrors `SignedResponse.load_from_bytes` (client.py lines 240-250):
parse the blob and take over its three fields. -/
def SignedResponse.load_from_bytes (b : Bytes) : Option SignedResponse :=
  (decodeResponseProof b).map fun proof =>
    { payload := proof.payload
      signature := proof.signature
      attestation := proof.attestation }

/-- Mirrors the python `TensorInfo` object after `TensorInfo.__init__`
(client.py lines 317-328): a field is `none` when the corresponding python
attribute was never assigned (accessing it raises `AttributeError`). -/
structure TensorInfo where
  dims : Option (List Nat) := none
  datum_type : Option ModelDatumType := none
  index : Option Nat := none
  index_name : Option String := none
  deriving DecidableEq, Repr

/-- Mirrors `TensorInfo.__init__`: the constructor takes all four arguments
but its body only assigns `self.dims` and `self.datum_type`; `index` and
`index_name` are never assigned (client.py lines 323-328). -/
def TensorInfo.init (dims : List Nat) (datum_type : ModelDatumType)
    (index : Nat) (index_name : String) : TensorInfo :=
  { dims := some dims
    datum_type := some datum_type }

/-- Little-endian byte encoding of a natural number at a fixed width. -/
def leBytes : Nat → Nat → Bytes
  | 0, _ => []
  | w + 1, n => n % 256 :: leBytes w (n / 256)

/-- Modelled from the spec: fixed-width encoding of one tensor element at the
byte width implied by the datum type (spec section 4.3; the real encoder
lives in `blindai/utils/serialize.py`, which is not under src/).  Values are
modelled as integers, reduced modulo the width. -/
def encodeElem (d : ModelDatumType) (v : Int) : Bytes :=
  leBytes (dt_per_type d) ((v % ((2 : Int) ^ (8 * dt_per_type d))).toNat)

/-- Fixed transport chunk limit; the exact value is immaterial to the claims
because every use concatenates the chunks back together. -/
def CHUNK_SIZE : Nat := 32768

/-- Fuel-indexed chunking of a byte string into pieces of at most
`CHUNK_SIZE` bytes. -/
def chunkFuel : Nat → Bytes → List Bytes
  | 0, _ => []
  | _ + 1, [] => []
  | f + 1, b => b.take CHUNK_SIZE :: chunkFuel f (b.drop CHUNK_SIZE)

/-- Modelled from the spec: `serialize_tensor` from
`blindai/utils/serialize.py` is not under src/.  Spec section 4.3: flatten
the values at the byte width implied by the datum type and split the result
into a bounded sequence of chunks no larger than a fixed transport limit. -/
def serialize_tensor (t : List Int) (d : ModelDatumType) : List Bytes :=
  let flat := (t.map (encodeElem d)).flatten
  chunkFuel flat.length flat

/-- Concatenation of the serialized chunk sequences of a list of tensors,
pairing each tensor with its datum type positionally; indexing past the end
of the datum-type list is the python `IndexError` of `dtype[i]`. -/
def serializeAllJoin : List (List Int) → List ModelDatumType → Except PyError Bytes
  | [], _ => .ok []
  | _ :: _, [] => .error .indexError
  | t :: ts, d :: ds =>
    match serializeAllJoin ts ds with
    | .ok rest => .ok ((serialize_tensor t d).flatten ++ rest)
    | .error e => .error e

/-- A python `tensors` argument: either a flat list of numbers (its first
element is not a list) or a list of tensors. -/
inductive PyTensors
  | flat (xs : List Int)
  | nested (xss : List (List Int))
  deriving DecidableEq, Repr

/-- Mirrors the wrapping `if type(tensors[0]) != list: tensors = [tensors]`. -/
def PyTensors.normalize : PyTensors → List (List Int)
  | .flat xs => [xs]
  | .nested xss => xss

/-- A python `dtype` argument: a single datum type or a list of them. -/
inductive PyDtypeArg
  | one (d : ModelDatumType)
  | many (ds : List ModelDatumType)
  deriving DecidableEq, Repr

/-- Mirrors the wrapping `if type(dtype) != list: dtype = [dtype]`. -/
def PyDtypeArg.normalize : PyDtypeArg → List ModelDatumType
  | .one d => [d]
  | .many ds => ds

/-- A python `shape` argument: a single shape or a list of shapes.  The
source normalises it inside `RunModelResponse.validate` but never uses the
result there. -/
inductive PyShapeArg
  | flat (s : List Nat)
  | nested (ss : List (List Nat))
  deriving DecidableEq, Repr

/-- Mirrors the wrapping `if type(shape[0]) != list: shape = [shape]`. -/
def PyShapeArg.normalize : PyShapeArg → List (List Nat)
  | .flat s => [s]
  | .nested ss => ss

/-- External collaborators of the client, passed explicitly: the protobuf
payload decoders, SHA-256 (applied to the concatenation of all bytes fed to
`hash.update`), the DCAP attestation verifier and the helpers from
`blindai.dcap_attestation` / `blindai.utils` whose sources are outside
src/. -/
structure Externals where
  decodeSendModelPayload : Bytes → SendModelPayload
  decodeRunModelPayload : Bytes → RunModelPayload
  sha256 : Bytes → Bytes
  verify_dcap_attestation : GetSgxQuoteWithCollateralReply → Except PyError AttestationClaims
  verify_claims : AttestationClaims → Option Policy → Except PyError Unit
  get_enclave_signing_key : Bytes → Ed25519PublicKey
  policy_from_file : String → Except PyError Policy
  encode_certificate : Bytes → Bytes
  supported_server_version : String → Bool
  read_cert_file : String → Except PyError Bytes
  ssl_get_server_certificate : Except PyError Bytes

/-- Mirrors `_validate_quote` (client.py lines 142-155): verify the DCAP
attestation, check the claims against the policy, and derive the enclave
signing key from the attested server certificate. -/
def _validate_quote (ext : Externals) (attestation : GetSgxQuoteWithCollateralReply)
    (policy : Option Policy) : Except PyError Ed25519PublicKey :=
  match ext.verify_dcap_attestation attestation with
  | .error e => .error e
  | .ok claims =>
    match ext.verify_claims claims policy with
    | .error e => .error e
    | .ok _ => .ok (ext.get_enclave_signing_key claims.server_cert)

/-- Mirrors `UploadModelResponse.validate` (client.py lines 259-310), step
for step in the source's order: signed check, simulation gate, optional
policy reload, optional quote validation, payload decode, signature
verification (skipped in simulation mode; `None.verify` is the python
`AttributeError`), and the model-hash comparison. -/
def UploadModelResponse.validate (ext : Externals) (self : SignedResponse)
    (model_hash : Bytes) (policy_file : Option String) (policy : Option Policy)
    (validate_quote : Bool) (enclave_signing_key : Option Ed25519PublicKey)
    (allow_simulation_mode : Bool) : Except PyError Unit :=
  if self.is_signed = false then .error .sigNotSigned
  else if allow_simulation_mode = false ∧ self.is_simulation_mode = true then
    .error .sigSimulationMode
  else
    let policyStep : Except PyError (Option Policy) :=
      match policy_file with
      | some pf =>
        if self.is_simulation_mode = false ∧ validate_quote = true then
          match ext.policy_from_file pf with
          | .ok p => .ok (some p)
          | .error e => .error e
        else .ok policy
      | none => .ok policy
    match policyStep with
    | .error e => .error e
    | .ok policy1 =>
      let quoteStep : Except PyError (Option Ed25519PublicKey) :=
        if self.is_simulation_mode = false ∧ validate_quote = true then
          match self.attestation with
          | some att =>
            match _validate_quote ext att policy1 with
            | .ok k => .ok (some k)
            | .error e => .error e
          | none => .ok enclave_signing_key
        else .ok enclave_signing_key
      match quoteStep with
      | .error e => .error e
      | .ok esk =>
        match self.payload with
        | none => .error .typeError
        | some payloadBytes =>
          let pb := ext.decodeSendModelPayload payloadBytes
          let sigStep : Except PyError Unit :=
            if self.is_simulation_mode = false then
              match esk with
              | none => .error .attributeError
              | some k =>
                match self.signature with
                | none => .error .typeError
                | some sg =>
                  if k.verify sg payloadBytes = true then .ok ()
                  else .error .sigInvalidSignature
            else .ok ()
          match sigStep with
          | .error e => .error e
          | .ok _ =>
            if model_hash = pb.model_hash then .ok ()
            else .error .sigInvalidModelHash

/-- Mirrors `RunModelResponse.validate` (client.py lines 395-464): same
prelude as the upload variant, then the input-tensor wrapping, the SHA-256
recomputation over the serialized chunk sequence, and the `input_hash` /
`model_id` comparisons.  The normalised `shape` is unused by the source. -/
def RunModelResponse.validate (ext : Externals) (self : SignedResponse)
    (model_id : String) (tensors : PyTensors) (dtype : PyDtypeArg)
    (shape : PyShapeArg) (policy_file : Option String) (policy : Option Policy)
    (validate_quote : Bool) (enclave_signing_key : Option Ed25519PublicKey)
    (allow_simulation_mode : Bool) : Except PyError Unit :=
  if self.is_signed = false then .error .sigNotSigned
  else if allow_simulation_mode = false ∧ self.is_simulation_mode = true then
    .error .sigSimulationMode
  else
    let policyStep : Except PyError (Option Policy) :=
      match policy_file with
      | some pf =>
        if self.is_simulation_mode = false ∧ validate_quote = true then
          match ext.policy_from_file pf with
          | .ok p => .ok (some p)
          | .error e => .error e
        else .ok policy
      | none => .ok policy
    match policyStep with
    | .error e => .error e
    | .ok policy1 =>
      let quoteStep : Except PyError (Option Ed25519PublicKey) :=
        if self.is_simulation_mode = false ∧ validate_quote = true then
          match self.attestation with
          | some att =>
            match _validate_quote ext att policy1 with
            | .ok k => .ok (some k)
            | .error e => .error e
          | none => .ok enclave_signing_key
        else .ok enclave_signing_key
      match quoteStep with
      | .error e => .error e
      | .ok esk =>
        match self.payload with
        | none => .error .typeError
        | some payloadBytes =>
          let pb := ext.decodeRunModelPayload payloadBytes
          let sigStep : Except PyError Unit :=
            if self.is_simulation_mode = false then
              match esk with
              | none => .error .attributeError
              | some k =>
                match self.signature with
                | none => .error .typeError
                | some sg =>
                  if k.verify sg payloadBytes = true then .ok ()
                  else .error .sigInvalidSignature
            else .ok ()
          match sigStep with
          | .error e => .error e
          | .ok _ =>
            match serializeAllJoin tensors.normalize dtype.normalize with
            | .error e => .error e
            | .ok hashedBytes =>
              if ext.sha256 hashedBytes = pb.input_hash then
                if model_id = pb.model_id then .ok ()
                else .error .sigInvalidModelId
              else .error .sigInvalidInputHash

/-- Mirrors `RunModelResponse.__init__` (client.py lines 354-393): decode the
reply payload; when `sign` is requested, keep the payload / signature /
attestation on the artifact and validate it immediately with
`validate_quote=False` and the session's key. -/
def RunModelResponse.mk (ext : Externals) (input_tensors : PyTensors)
    (input_datum_type : PyDtypeArg) (input_shape : PyShapeArg)
    (response : PbReply) (sign : Bool)
    (attestation : Option GetSgxQuoteWithCollateralReply)
    (enclave_signing_key : Option Ed25519PublicKey)
    (allow_simulation_mode : Bool) : Except PyError SignedResponse :=
  let model_id := (ext.decodeRunModelPayload response.payload).model_id
  if sign then
    let self : SignedResponse :=
      { payload := some response.payload
        signature := some response.signature
        attestation := attestation }
    match RunModelResponse.validate ext self model_id input_tensors
        input_datum_type input_shape none none false enclave_signing_key
        allow_simulation_mode with
    | .ok _ => .ok self
    | .error e => .error e
  else .ok {}

/-- Channel and RPC events observable on the transport, used to state the
"before touching the channel" and "no leaked handle" properties.  Channel 0
is the untrusted (discovery) channel, channel 1 the attested channel. -/
inductive Ev
  | openChannel (n : Nat)
  | closeChannel (n : Nat)
  | rpcGetServerInfo
  | rpcGetCertificate
  | rpcGetSgxQuote
  | rpcSendModel
  | rpcRunModel
  | rpcDeleteModel
  deriving DecidableEq, Repr

/-- Session state of a `BlindAiConnection` (client.py lines 486-498). -/
structure ConnState where
  closed : Bool := false
  channel : Option Nat := none
  stub : Option Nat := none
  policy : Option Policy := none
  enclave_signing_key : Option Ed25519PublicKey := none
  attestation : Option GetSgxQuoteWithCollateralReply := none
  server_version : Option String := none
  simulation_mode : Bool := false

/-- Mirrors the `raise_exception_if_conn_closed` decorator (client.py lines
471-483): when the connection is closed, raise
`ValueError("Illegal operation on closed connection.")` before running the
wrapped method; no channel event is emitted and the state is untouched. -/
def raise_exception_if_conn_closed {α : Type}
    (f : ConnState → Except PyError α × ConnState × List Ev) (s : ConnState) :
    Except PyError α × ConnState × List Ev :=
  if s.closed then (.error .invalidState, s, []) else f s

/-- Body of `BlindAiConnection.upload_model` (client.py lines 698-784): read
the model file, stream it over `SendModel`, map `RpcError` to
`ConnectionError`, and when `sign` was requested validate the returned
artifact with `validate_quote=False` against the session's key. -/
def upload_model_body (ext : Externals) (fileData : Except PyError Bytes)
    (rpc : Except RpcErr PbReply) (sign : Bool) (s : ConnState) :
    Except PyError SignedResponse × ConnState × List Ev :=
  match fileData with
  | .error e => (.error e, s, [])
  | .ok data =>
    match rpc with
    | .error _ => (.error .connectionError, s, [.rpcSendModel])
    | .ok reply =>
      if sign then
        let ret : SignedResponse :=
          { payload := some reply.payload
            signature := some reply.signature
            attestation := s.attestation }
        match UploadModelResponse.validate ext ret (ext.sha256 data) none none
            false s.enclave_signing_key s.simulation_mode with
        | .ok _ => (.ok ret, s, [.rpcSendModel])
        | .error e => (.error e, s, [.rpcSendModel])
      else (.ok {}, s, [.rpcSendModel])

/-- `BlindAiConnection.upload_model`, i.e. the body wrapped by
`raise_exception_if_conn_closed`. -/
def BlindAiConnection.upload_model (ext : Externals)
    (fileData : Except PyError Bytes) (rpc : Except RpcErr PbReply)
    (sign : Bool) (s : ConnState) :
    Except PyError SignedResponse × ConnState × List Ev :=
  raise_exception_if_conn_closed (upload_model_body ext fileData rpc sign) s

/-- Body of `BlindAiConnection.run_model` (client.py lines 786-877) for plain
list inputs (the optional torch adapters are outside the core): stream the
serialized tensors over `RunModel`, map `RpcError` to `ConnectionError`, and
build the response, validating it when `sign` was requested. -/
def run_model_body (ext : Externals) (rpc : Except RpcErr PbReply)
    (model_id : String) (tensors : PyTensors) (dtype : PyDtypeArg)
    (shape : PyShapeArg) (sign : Bool) (s : ConnState) :
    Except PyError SignedResponse × ConnState × List Ev :=
  match rpc with
  | .error _ => (.error .connectionError, s, [.rpcRunModel])
  | .ok reply =>
    match RunModelResponse.mk ext tensors dtype shape reply sign s.attestation
        s.enclave_signing_key s.simulation_mode with
    | .ok r => (.ok r, s, [.rpcRunModel])
    | .error e => (.error e, s, [.rpcRunModel])

/-- `BlindAiConnection.run_model`, i.e. the body wrapped by
`raise_exception_if_conn_closed`. -/
def BlindAiConnection.run_model (ext : Externals) (rpc : Except RpcErr PbReply)
    (model_id : String) (tensors : PyTensors) (dtype : PyDtypeArg)
    (shape : PyShapeArg) (sign : Bool) (s : ConnState) :
    Except PyError SignedResponse × ConnState × List Ev :=
  raise_exception_if_conn_closed
    (run_model_body ext rpc model_id tensors dtype shape sign) s

/-- Body of `BlindAiConnection.delete_model` (client.py lines 879-900). -/
def delete_model_body (rpc : Except RpcErr Unit) (s : ConnState) :
    Except PyError Unit × ConnState × List Ev :=
  match rpc with
  | .error _ => (.error .connectionError, s, [.rpcDeleteModel])
  | .ok _ => (.ok (), s, [.rpcDeleteModel])

/-- `BlindAiConnection.delete_model`, i.e. the body wrapped by
`raise_exception_if_conn_closed`. -/
def BlindAiConnection.delete_model (rpc : Except RpcErr Unit) (s : ConnState) :
    Except PyError Unit × ConnState × List Ev :=
  raise_exception_if_conn_closed (delete_model_body rpc) s

/-- Mirrors `BlindAiConnection.close` (client.py lines 902-910): when not yet
closed, close the channel and clear `_channel`, `_stub`, `policy` and
`server_version`; `enclave_signing_key` and `attestation` are left in place
by the source.  A python quirk is kept: if `closed` is false but `_channel`
is `None`, `self._channel.close()` raises `AttributeError`. -/
def BlindAiConnection.close (s : ConnState) :
    Except PyError Unit × ConnState × List Ev :=
  if s.closed then (.ok (), s, [])
  else
    match s.channel with
    | none => (.error .attributeError, s, [])
    | some c =>
      (.ok (),
       { s with
          closed := true
          channel := none
          stub := none
          policy := none
          server_version := none },
       [.closeChannel c])

/-- Results of the three RPC calls a bootstrap run can make on the untrusted
channel. -/
structure BootRpc where
  getServerInfo : Except RpcErr ServerInfo
  getCertificate : Except RpcErr Bytes
  getSgxQuoteWithCollateral : Except RpcErr GetSgxQuoteWithCollateralReply

/-- Tail of `_connect_server`: close the discovery channel, derive the
enclave signing key from the server certificate, and open the attested
channel (client.py lines 683-692). -/
def connectFinish (ext : Externals) (simulation : Bool) (pol : Option Policy)
    (att : Option GetSgxQuoteWithCollateralReply) (server_cert : Bytes)
    (info : ServerInfo) : Except PyError ConnState × List Ev :=
  (.ok
    { closed := false
      channel := some 1
      stub := some 1
      policy := pol
      enclave_signing_key := some (ext.get_enclave_signing_key server_cert)
      attestation := att
      server_version := some info.version
      simulation_mode := simulation },
   [.openChannel 0, .rpcGetServerInfo]
     ++ (if simulation then [Ev.rpcGetCertificate] else [Ev.rpcGetSgxQuote])
     ++ [.closeChannel 0, .openChannel 1])

/-- Mirrors `BlindAiConnection._connect_server` (client.py lines 597-696).
Failure mapping follows the source exactly: only `RpcError` is caught by the
`except` clause that closes the current channel; `VersionError` and the
attestation failures propagate without closing the already-open discovery
channel. -/
def BlindAiConnection.connectServer (ext : Externals) (rpc : BootRpc)
    (simulation : Bool) (policyPath certPath : String) :
    Except PyError ConnState × List Ev :=
  match (if simulation then Except.ok none
         else
           match ext.policy_from_file policyPath with
           | .ok p => .ok (some p)
           | .error e => .error e : Except PyError (Option Policy)) with
  | .error e => (.error e, [])
  | .ok pol =>
    match (if simulation then
             match ext.ssl_get_server_certificate with
             | .ok _ => Except.ok ()
             | .error _ => .error PyError.connectionError
           else
             match ext.read_cert_file certPath with
             | .ok _ => .ok ()
             | .error e => .error e : Except PyError Unit) with
    | .error e => (.error e, [])
    | .ok _ =>
      match rpc.getServerInfo with
      | .error _ =>
        (.error .connectionError,
         [.openChannel 0, .rpcGetServerInfo, .closeChannel 0])
      | .ok info =>
        if ext.supported_server_version info.version = false then
          (.error .versionError, [.openChannel 0, .rpcGetServerInfo])
        else if simulation then
          match rpc.getCertificate with
          | .error _ =>
            (.error .connectionError,
             [.openChannel 0, .rpcGetServerInfo, .rpcGetCertificate,
              .closeChannel 0])
          | .ok cert =>
            connectFinish ext simulation pol none (ext.encode_certificate cert)
              info
        else
          match rpc.getSgxQuoteWithCollateral with
          | .error _ =>
            (.error .connectionError,
             [.openChannel 0, .rpcGetServerInfo, .rpcGetSgxQuote,
              .closeChannel 0])
          | .ok att =>
            match ext.verify_dcap_attestation att with
            | .error e =>
              (.error e,
               [.openChannel 0, .rpcGetServerInfo, .rpcGetSgxQuote])
            | .ok claims =>
              match ext.verify_claims claims pol with
              | .error e =>
                (.error e,
                 [.openChannel 0, .rpcGetServerInfo, .rpcGetSgxQuote])
              | .ok _ =>
                connectFinish ext simulation pol (some att) claims.server_cert
                  info

/-- Whether all the pre-channel steps of a bootstrap run succeed (policy file
and certificate file in hardware mode, the plain TLS certificate fetch in
simulation mode). -/
def preChannelOk (ext : Externals) (simulation : Bool)
    (policyPath certPath : String) : Bool :=
  if simulation then exceptOk ext.ssl_get_server_certificate
  else exceptOk (ext.policy_from_file policyPath)
    && exceptOk (ext.read_cert_file certPath)

/-- A key whose verification predicate always succeeds; used for concrete
witnesses. -/
def keyTrue : Ed25519PublicKey := ⟨fun _ _ => true⟩

/-- A key whose verification predicate always fails; used for concrete
witnesses. -/
def keyFalse : Ed25519PublicKey := ⟨fun _ _ => false⟩

/-- Concrete attestation evidence for witnesses. -/
def attW : GetSgxQuoteWithCollateralReply := ⟨[9], [8], [7]⟩

/-- Concrete external collaborators for witnesses: the hash is the identity,
payloads decode to a fixed record whose embedded descriptor is the digest of
the byte string `[1, 2]`, and the advertised server version is unsupported. -/
def extW : Externals where
  decodeSendModelPayload := fun _ => ⟨[1, 2], ("m")⟩
  decodeRunModelPayload := fun _ => ⟨[1, 2], ("m")⟩
  sha256 := fun b => b
  verify_dcap_attestation := fun _ => .ok ⟨[5]⟩
  verify_claims := fun _ _ => .ok ()
  get_enclave_signing_key := fun _ => keyTrue
  policy_from_file := fun _ => .ok ⟨[0]⟩
  encode_certificate := fun b => b
  supported_server_version := fun _ => false
  read_cert_file := fun _ => .ok [0]
  ssl_get_server_certificate := .ok [0]

/-- Concrete signed, attested (hardware-mode) artifact for witnesses. -/
def rW : SignedResponse :=
  { payload := some [0], signature := some [1], attestation := some attW }

/-- Concrete signed simulation-mode artifact (no attestation). -/
def rSim : SignedResponse :=
  { payload := some [0], signature := some [1], attestation := none }

/-- Concrete bootstrap RPC outcomes where every call succeeds. -/
def rpcW : BootRpc := ⟨.ok ⟨("1.0")⟩, .ok [3], .ok attW⟩

/-- Concrete bootstrap RPC outcomes where `GetServerInfo` fails with an
`RpcError`. -/
def rpcInfoErr : BootRpc := ⟨.error ⟨0⟩, .ok [3], .ok attW⟩

/-- Concrete open session state for witnesses. -/
def sOpen : ConnState :=
  { closed := false
    channel := some 7
    stub := some 7
    policy := some ⟨[1]⟩
    enclave_signing_key := some keyTrue
    attestation := some attW
    server_version := some ("v")
    simulation_mode := false }

/-- Concrete closed session state for witnesses. -/
def sClosed : ConnState := { closed := true }


/-! ## Helper lemmas -/

/-- Taking the length of the left part of an append returns that part. -/
theorem take_len_append (l r : Bytes) : (l ++ r).take l.length = l := by
  induction l with
  | nil => rfl
  | cons a t ih => simp [ih]

/-- Dropping the length of the left part of an append returns the right part. -/
theorem drop_len_append (l r : Bytes) : (l ++ r).drop l.length = r := by
  induction l with
  | nil => rfl
  | cons a t ih => simp [ih]

/-- The length-prefixed decoder inverts the encoder, leaving the rest. -/
theorem decLen_encLen (l rest : Bytes) :
    decLen (encLen l ++ rest) = some (l, rest) := by
  have h1 : l.length ≤ (l ++ rest).length := by simp
  simp [encLen, decLen, h1, take_len_append, drop_len_append]

/-- The optional-bytes decoder inverts the encoder, leaving the rest. -/
theorem decOptBytes_encOptBytes (o : Option Bytes) (rest : Bytes) :
    decOptBytes (encOptBytes o ++ rest) = some (o, rest) := by
  cases o with
  | none => rfl
  | some l => simp [encOptBytes, decOptBytes, decLen_encLen]

/-- The attestation decoder inverts the encoder, leaving the rest. -/
theorem decAtt_encAtt (a : GetSgxQuoteWithCollateralReply) (rest : Bytes) :
    decAtt (encAtt a ++ rest) = some (a, rest) := by
  cases a
  simp [encAtt, decAtt, List.append_assoc, decLen_encLen]

/-- The optional-attestation decoder inverts the encoder, leaving the rest. -/
theorem decOptAtt_encOptAtt (o : Option GetSgxQuoteWithCollateralReply)
    (rest : Bytes) : decOptAtt (encOptAtt o ++ rest) = some (o, rest) := by
  cases o with
  | none => rfl
  | some a => simp [encOptAtt, decOptAtt, decAtt_encAtt]

/-- The record codec round-trips every `ResponseProof`. -/
theorem decodeResponseProof_encodeResponseProof (p : ResponseProof) :
    decodeResponseProof (encodeResponseProof p) = some p := by
  cases p with
  | mk pay sg a =>
    have h1 := decOptBytes_encOptBytes pay (encOptBytes sg ++ encOptAtt a)
    have h2 := decOptBytes_encOptBytes sg (encOptAtt a)
    have h3 := decOptAtt_encOptAtt a []
    simp only [List.append_nil] at h3
    simp [encodeResponseProof, decodeResponseProof, List.append_assoc, h1, h2, h3]

/-! ## Claim theorems -/

/-- C8: serializing a `SignedResponse` with `as_bytes` and reloading it with
`load_from_bytes` yields an artifact with the same payload, signature and
attestation; in particular the reloaded artifact's `is_signed` and
`is_simulation_mode` flags equal the original's, where `is_simulation_mode`
holds iff the attestation is absent and `is_signed` holds iff the signature
is present. -/
theorem claim_C8 (r : SignedResponse) :
    SignedResponse.load_from_bytes (SignedResponse.as_bytes r) = some r ∧
    (SignedResponse.load_from_bytes (SignedResponse.as_bytes r)).map
        SignedResponse.is_signed = some r.is_signed ∧
    (SignedResponse.load_from_bytes (SignedResponse.as_bytes r)).map
        SignedResponse.is_simulation_mode = some r.is_simulation_mode ∧
    (r.is_simulation_mode = true ↔ r.attestation = none) ∧
    (r.is_signed = true ↔ ∃ sg, r.signature = some sg) := by
  have hrt : SignedResponse.load_from_bytes (SignedResponse.as_bytes r) = some r := by
    cases r
    simp [SignedResponse.as_bytes, SignedResponse.load_from_bytes,
      decodeResponseProof_encodeResponseProof]
  refine ⟨hrt, by rw [hrt]; rfl, by rw [hrt]; rfl, ?_, ?_⟩
  · cases h : r.attestation <;>
      simp [SignedResponse.is_simulation_mode, h]
  · cases h : r.signature <;>
      simp [SignedResponse.is_signed, h]

/-- C9: the claim says a `TensorInfo` constructed from a shape, a datum-type
tag, a positional index and a name carries all four; the source's
`__init__` assigns only `dims` and `datum_type` and silently drops `index`
and `index_name` (they are never set on the object, so accessing them
raises `AttributeError`).  Evaluated at the failing input
`([2, 2], F32, 1, "x")`. -/
theorem claim_C9 :
    (TensorInfo.init [2, 2] .F32 1 ("x")).dims = some [2, 2] ∧
    (TensorInfo.init [2, 2] .F32 1 ("x")).datum_type = some .F32 ∧
    (TensorInfo.init [2, 2] .F32 1 ("x")).index = none ∧
    (TensorInfo.init [2, 2] .F32 1 ("x")).index_name = none :=
  ⟨rfl, rfl, rfl, rfl⟩

/-- Characterization of `UploadModelResponse.validate` on a signed,
non-simulation artifact with `validate_quote := false` and a supplied key:
the outcome is decided by the signature check and then the model-hash
comparison. -/
theorem uploadValidate_hw_noquote (ext : Externals) (r : SignedResponse)
    (p sg : Bytes) (att : GetSgxQuoteWithCollateralReply)
    (k : Ed25519PublicKey) (mh : Bytes) (pf : Option String)
    (pol : Option Policy) (allow : Bool)
    (hp : r.payload = some p) (hs : r.signature = some sg)
    (ha : r.attestation = some att) :
    UploadModelResponse.validate ext r mh pf pol false (some k) allow =
      if k.verify sg p = true then
        (if mh = (ext.decodeSendModelPayload p).model_hash then .ok ()
         else .error .sigInvalidModelHash)
      else .error .sigInvalidSignature := by
  cases pf <;> cases hv : k.verify sg p <;>
    simp [UploadModelResponse.validate, SignedResponse.is_signed,
      SignedResponse.is_simulation_mode, hp, hs, ha, hv]

/-- Characterization of `RunModelResponse.validate` on a signed,
non-simulation artifact with `validate_quote := false` and a supplied key:
the outcome is decided by the signature check, then the recomputed input
digest, then the model-id comparison. -/
theorem runValidate_hw_noquote (ext : Externals) (r : SignedResponse)
    (p sg : Bytes) (att : GetSgxQuoteWithCollateralReply)
    (k : Ed25519PublicKey) (mid : String) (tensors : PyTensors)
    (dtype : PyDtypeArg) (shape : PyShapeArg) (pf : Option String)
    (pol : Option Policy) (allow : Bool)
    (hp : r.payload = some p) (hs : r.signature = some sg)
    (ha : r.attestation = some att) :
    RunModelResponse.validate ext r mid tensors dtype shape pf pol false
        (some k) allow =
      if k.verify sg p = true then
        (match serializeAllJoin tensors.normalize dtype.normalize with
         | .error e => .error e
         | .ok bs =>
           if ext.sha256 bs = (ext.decodeRunModelPayload p).input_hash then
             (if mid = (ext.decodeRunModelPayload p).model_id then .ok ()
              else .error .sigInvalidModelId)
           else .error .sigInvalidInputHash)
      else .error .sigInvalidSignature := by
  cases pf <;> cases hv : k.verify sg p <;>
    simp [RunModelResponse.validate, SignedResponse.is_signed,
      SignedResponse.is_simulation_mode, hp, hs, ha, hv]

/-- With `validate_quote := false` and no supplied key, the signature step of
`UploadModelResponse.validate` on a signed, non-simulation artifact is the
python `AttributeError` of `None.verify(...)`. -/
theorem uploadValidate_hw_nokey (ext : Externals) (r : SignedResponse)
    (p sg : Bytes) (att : GetSgxQuoteWithCollateralReply) (mh : Bytes)
    (pf : Option String) (pol : Option Policy) (allow : Bool)
    (hp : r.payload = some p) (hs : r.signature = some sg)
    (ha : r.attestation = some att) :
    UploadModelResponse.validate ext r mh pf pol false none allow =
      .error .attributeError := by
  cases pf <;>
    simp [UploadModelResponse.validate, SignedResponse.is_signed,
      SignedResponse.is_simulation_mode, hp, hs, ha]

/-- With `validate_quote := false` and no supplied key, the signature step of
`RunModelResponse.validate` on a signed, non-simulation artifact is the
python `AttributeError` of `None.verify(...)`. -/
theorem runValidate_hw_nokey (ext : Externals) (r : SignedResponse)
    (p sg : Bytes) (att : GetSgxQuoteWithCollateralReply) (mid : String)
    (tensors : PyTensors) (dtype : PyDtypeArg) (shape : PyShapeArg)
    (pf : Option String) (pol : Option Policy) (allow : Bool)
    (hp : r.payload = some p) (hs : r.signature = some sg)
    (ha : r.attestation = some att) :
    RunModelResponse.validate ext r mid tensors dtype shape pf pol false none
        allow = .error .attributeError := by
  cases pf <;>
    simp [RunModelResponse.validate, SignedResponse.is_signed,
      SignedResponse.is_simulation_mode, hp, hs, ha]

/-- Characterization of `UploadModelResponse.validate` on a signed
simulation-mode artifact: the simulation gate decides first, then quote
validation and the signature check are skipped and only the model-hash
comparison remains; the enclave signing key is never consulted. -/
theorem uploadValidate_sim (ext : Externals) (r : SignedResponse) (sg : Bytes)
    (mh : Bytes) (pf : Option String) (pol : Option Policy) (vq : Bool)
    (esk : Option Ed25519PublicKey) (allow : Bool)
    (hs : r.signature = some sg) (ha : r.attestation = none) :
    UploadModelResponse.validate ext r mh pf pol vq esk allow =
      if allow = false then .error .sigSimulationMode
      else
        match r.payload with
        | none => .error .typeError
        | some p =>
          if mh = (ext.decodeSendModelPayload p).model_hash then .ok ()
          else .error .sigInvalidModelHash := by
  cases pf <;> cases allow <;> cases hpay : r.payload <;>
    simp [UploadModelResponse.validate, SignedResponse.is_signed,
      SignedResponse.is_simulation_mode, hs, ha, hpay]

/-- Characterization of `RunModelResponse.validate` on a signed
simulation-mode artifact: the simulation gate decides first, then quote
validation and the signature check are skipped and only the content
comparisons remain; the enclave signing key is never consulted. -/
theorem runValidate_sim (ext : Externals) (r : SignedResponse) (sg : Bytes)
    (mid : String) (tensors : PyTensors) (dtype : PyDtypeArg)
    (shape : PyShapeArg) (pf : Option String) (pol : Option Policy) (vq : Bool)
    (esk : Option Ed25519PublicKey) (allow : Bool)
    (hs : r.signature = some sg) (ha : r.attestation = none) :
    RunModelResponse.validate ext r mid tensors dtype shape pf pol vq esk
        allow =
      if allow = false then .error .sigSimulationMode
      else
        match r.payload with
        | none => .error .typeError
        | some p =>
          match serializeAllJoin tensors.normalize dtype.normalize with
          | .error e => .error e
          | .ok bs =>
            if ext.sha256 bs = (ext.decodeRunModelPayload p).input_hash then
              (if mid = (ext.decodeRunModelPayload p).model_id then .ok ()
               else .error .sigInvalidModelId)
            else .error .sigInvalidInputHash := by
  cases pf <;> cases allow <;> cases hpay : r.payload <;>
    simp [RunModelResponse.validate, SignedResponse.is_signed,
      SignedResponse.is_simulation_mode, hs, ha, hpay]

/-- The only failure of `serializeAllJoin` is the positional `IndexError`. -/
theorem serializeAllJoin_error (ts : List (List Int)) (ds : List ModelDatumType)
    (e : PyError) (h : serializeAllJoin ts ds = .error e) : e = .indexError := by
  induction ts generalizing ds with
  | nil => simp [serializeAllJoin] at h
  | cons t ts ih =>
    cases ds with
    | nil =>
      simp [serializeAllJoin] at h
      exact h.symm
    | cons d ds =>
      simp only [serializeAllJoin] at h
      cases hrec : serializeAllJoin ts ds with
      | ok rest => rw [hrec] at h; simp at h
      | error e2 =>
        rw [hrec] at h
        simp only [Except.error.injEq] at h
        subst h
        exact ih ds hrec

/-- C1: for every signed, non-simulation-mode artifact, `validate` (here with
`validate_quote := false` and the session key supplied, as the live `sign`
paths call it) verifies the signature over the raw payload bytes with the
enclave signing key and yields `SignatureError("Invalid signature")` on any
cryptographic mismatch — in particular on an artifact whose payload was
replaced by any bytes the key rejects, e.g. a one-byte mutation — while a
passing check never yields that error; and the verification step is skipped
exactly in simulation mode: there the outcome does not depend on the key at
all. -/
theorem claim_C1 (ext : Externals) (r : SignedResponse) (p sg : Bytes)
    (att : GetSgxQuoteWithCollateralReply) (k : Ed25519PublicKey)
    (mh : Bytes) (mid : String) (tensors : PyTensors) (dtype : PyDtypeArg)
    (shape : PyShapeArg) (pf : Option String) (pol : Option Policy)
    (allow : Bool)
    (hp : r.payload = some p) (hs : r.signature = some sg)
    (ha : r.attestation = some att) :
    (k.verify sg p = false →
      UploadModelResponse.validate ext r mh pf pol false (some k) allow
          = .error .sigInvalidSignature ∧
      RunModelResponse.validate ext r mid tensors dtype shape pf pol false
          (some k) allow = .error .sigInvalidSignature) ∧
    (∀ p2 : Bytes, k.verify sg p2 = false →
      UploadModelResponse.validate ext { r with payload := some p2 } mh pf pol
          false (some k) allow = .error .sigInvalidSignature) ∧
    (k.verify sg p = true →
      UploadModelResponse.validate ext r mh pf pol false (some k) allow
          ≠ .error .sigInvalidSignature ∧
      RunModelResponse.validate ext r mid tensors dtype shape pf pol false
          (some k) allow ≠ .error .sigInvalidSignature) ∧
    (∀ (r2 : SignedResponse) (vq : Bool) (esk1 esk2 : Option Ed25519PublicKey),
      r2.attestation = none →
      UploadModelResponse.validate ext r2 mh pf pol vq esk1 allow
          = UploadModelResponse.validate ext r2 mh pf pol vq esk2 allow ∧
      RunModelResponse.validate ext r2 mid tensors dtype shape pf pol vq esk1
          allow
          = RunModelResponse.validate ext r2 mid tensors dtype shape pf pol vq
              esk2 allow) := by
  refine ⟨?_, ?_, ?_, ?_⟩
  · intro hv
    rw [uploadValidate_hw_noquote ext r p sg att k mh pf pol allow hp hs ha,
      runValidate_hw_noquote ext r p sg att k mid tensors dtype shape pf pol
        allow hp hs ha]
    simp [hv]
  · intro p2 hv
    rw [uploadValidate_hw_noquote ext { r with payload := some p2 } p2 sg att k
        mh pf pol allow rfl hs ha]
    simp [hv]
  · intro hv
    rw [uploadValidate_hw_noquote ext r p sg att k mh pf pol allow hp hs ha,
      runValidate_hw_noquote ext r p sg att k mid tensors dtype shape pf pol
        allow hp hs ha]
    constructor
    · simp only [hv, if_true]
      split <;> simp
    · simp only [hv, if_true]
      cases hse : serializeAllJoin tensors.normalize dtype.normalize with
      | error e2 =>
        have he := serializeAllJoin_error tensors.normalize dtype.normalize e2
          hse
        simp [hse, he]
      | ok bs =>
        dsimp only
        split
        · split <;> simp
        · simp
  · intro r2 vq esk1 esk2 ha2
    cases hs2 : r2.signature with
    | none =>
      constructor <;>
        simp [UploadModelResponse.validate, RunModelResponse.validate,
          SignedResponse.is_signed, hs2]
    | some sg2 =>
      rw [uploadValidate_sim ext r2 sg2 mh pf pol vq esk1 allow hs2 ha2,
        uploadValidate_sim ext r2 sg2 mh pf pol vq esk2 allow hs2 ha2,
        runValidate_sim ext r2 sg2 mid tensors dtype shape pf pol vq esk1
          allow hs2 ha2,
        runValidate_sim ext r2 sg2 mid tensors dtype shape pf pol vq esk2
          allow hs2 ha2]
      exact ⟨rfl, rfl⟩

/-- C1 witness at concrete inputs: a rejected signature yields
`SignatureError("Invalid signature")` for both validators. -/
theorem claim_C1_witness :
    UploadModelResponse.validate extW rW [1, 2] none none false (some keyFalse)
        false = .error .sigInvalidSignature ∧
    RunModelResponse.validate extW rW ("m") (.nested [[1, 2]])
        (.many [.U8]) (.nested [[1, 2]]) none none false (some keyFalse) false
        = .error .sigInvalidSignature :=
  (claim_C1 extW rW [0] [1] attW keyFalse [1, 2] ("m") (.nested [[1, 2]])
    (.many [.U8]) (.nested [[1, 2]]) none none false rfl rfl rfl).1 rfl

/-- C2 counterexample: the claim says that validating a validly signed run
response against an input tensor set *different* from the one actually used
always raises `SignatureError`.  On the code it does not: the descriptor is
only the SHA-256 of the concatenated serialized chunk bytes, so two
different tensor sets with identical concatenated serializations collide.
Concretely, the embedded `input_hash` below is the digest of the original
two-tensor input `[[1], [2]]` (types `U8, U8`), the signature verifies, and
validating against the different one-tensor input `[[1, 2]]` (type `U8`)
succeeds instead of raising. -/
theorem claim_C2_counterexample :
    serializeAllJoin (PyTensors.nested [[1], [2]]).normalize
        (PyDtypeArg.many [.U8, .U8]).normalize = .ok [1, 2] ∧
    serializeAllJoin (PyTensors.nested [[1, 2]]).normalize
        (PyDtypeArg.many [.U8]).normalize = .ok [1, 2] ∧
    (PyTensors.nested [[1], [2]]).normalize
        ≠ (PyTensors.nested [[1, 2]]).normalize ∧
    extW.decodeRunModelPayload [0] = ⟨extW.sha256 [1, 2], ("m")⟩ ∧
    rW.payload = some [0] ∧
    keyTrue.verify [1] [0] = true ∧
    RunModelResponse.validate extW rW ("m") (.nested [[1, 2]])
        (.many [.U8]) (.nested [[1, 2]]) none none false (some keyTrue) false
        = .ok () :=
  ⟨rfl, rfl, by decide, rfl, rfl, rfl, rfl⟩

/-- C2 amended: for every validly signed upload or run response (validated
with `validate_quote := false` and the session key, signature accepted),
`validate` recomputes the expected content descriptor from caller-supplied
data and compares it byte-for-byte against the descriptor embedded in the
payload: a different model hash (upload) or model id (run) always raises
`SignatureError`, and a different input tensor set raises `SignatureError`
exactly when the SHA-256 of its concatenated serialized chunk sequence
differs from the embedded digest (tensor sets whose serializations collide
byte-for-byte are accepted). -/
theorem claim_C2_amended (ext : Externals) (r : SignedResponse) (p sg : Bytes)
    (att : GetSgxQuoteWithCollateralReply) (k : Ed25519PublicKey)
    (mh : Bytes) (mid : String) (tensors : PyTensors) (dtype : PyDtypeArg)
    (shape : PyShapeArg) (pf : Option String) (pol : Option Policy)
    (allow : Bool)
    (hp : r.payload = some p) (hs : r.signature = some sg)
    (ha : r.attestation = some att) (hv : k.verify sg p = true) :
    (UploadModelResponse.validate ext r mh pf pol false (some k) allow =
      if mh = (ext.decodeSendModelPayload p).model_hash then .ok ()
      else .error .sigInvalidModelHash) ∧
    (∀ bs : Bytes,
      serializeAllJoin tensors.normalize dtype.normalize = .ok bs →
      RunModelResponse.validate ext r mid tensors dtype shape pf pol false
          (some k) allow =
        if ext.sha256 bs = (ext.decodeRunModelPayload p).input_hash then
          (if mid = (ext.decodeRunModelPayload p).model_id then .ok ()
           else .error .sigInvalidModelId)
        else .error .sigInvalidInputHash) := by
  constructor
  · rw [uploadValidate_hw_noquote ext r p sg att k mh pf pol allow hp hs ha]
    simp [hv]
  · intro bs hbs
    rw [runValidate_hw_noquote ext r p sg att k mid tensors dtype shape pf pol
      allow hp hs ha]
    simp [hv, hbs]

/-- C2 witness at concrete inputs: a model hash differing from the embedded
one raises `SignatureError("Invalid returned model_hash")`, and an input
digest differing from the embedded one raises
`SignatureError("Invalid returned input_hash")`. -/
theorem claim_C2_witness :
    UploadModelResponse.validate extW rW [9, 9] none none false (some keyTrue)
        false = .error .sigInvalidModelHash ∧
    RunModelResponse.validate extW rW ("m") (.nested [[3]]) (.many [.U8])
        (.nested [[3]]) none none false (some keyTrue) false
        = .error .sigInvalidInputHash := by
  have h := claim_C2_amended extW rW [0] [1] attW keyTrue [9, 9] ("m")
    (.nested [[3]]) (.many [.U8]) (.nested [[3]]) none none false rfl rfl rfl
    rfl
  exact ⟨h.1.trans rfl, (h.2 [3] rfl).trans rfl⟩

/-- C3: for every artifact in simulation mode (attestation absent),
`validate` with `allow_simulation_mode := false` raises a `SignatureError`
(the simulation gate, or the not-signed check for unsigned artifacts), and
with `allow_simulation_mode := true` it never fails on that ground — the
simulation-gate error cannot occur, so validation proceeds to the other
checks. -/
theorem claim_C3 (ext : Externals) (r : SignedResponse) (mh : Bytes)
    (mid : String) (tensors : PyTensors) (dtype : PyDtypeArg)
    (shape : PyShapeArg) (pf : Option String) (pol : Option Policy)
    (vq : Bool) (esk : Option Ed25519PublicKey)
    (ha : r.attestation = none) :
    (exceptIsSignatureError
        (UploadModelResponse.validate ext r mh pf pol vq esk false) = true ∧
     exceptIsSignatureError
        (RunModelResponse.validate ext r mid tensors dtype shape pf pol vq esk
          false) = true) ∧
    (UploadModelResponse.validate ext r mh pf pol vq esk true
        ≠ .error .sigSimulationMode ∧
     RunModelResponse.validate ext r mid tensors dtype shape pf pol vq esk true
        ≠ .error .sigSimulationMode) := by
  cases hs : r.signature with
  | none =>
    constructor <;> constructor <;>
      simp [UploadModelResponse.validate, RunModelResponse.validate,
        SignedResponse.is_signed, hs, exceptIsSignatureError, isSignatureError]
  | some sg =>
    constructor
    · constructor
      · rw [uploadValidate_sim ext r sg mh pf pol vq esk false hs ha]
        simp [exceptIsSignatureError, isSignatureError]
      · rw [runValidate_sim ext r sg mid tensors dtype shape pf pol vq esk
          false hs ha]
        simp [exceptIsSignatureError, isSignatureError]
    · constructor
      · rw [uploadValidate_sim ext r sg mh pf pol vq esk true hs ha]
        cases hpay : r.payload with
        | none => simp
        | some p => simp; split <;> simp
      · rw [runValidate_sim ext r sg mid tensors dtype shape pf pol vq esk
          true hs ha, if_neg (by simp)]
        cases hpay : r.payload with
        | none => simp
        | some p =>
          dsimp only
          cases hse : serializeAllJoin tensors.normalize dtype.normalize with
          | error e2 =>
            have he := serializeAllJoin_error tensors.normalize dtype.normalize
              e2 hse
            simp [he]
          | ok bs =>
            dsimp only
            split
            · split <;> simp
            · simp

/-- C3 witness at a concrete simulation-mode artifact: with
`allow_simulation_mode := false` validation fails with a `SignatureError`,
and with `allow_simulation_mode := true` the simulation-gate error does not
occur. -/
theorem claim_C3_witness :
    (exceptIsSignatureError
        (UploadModelResponse.validate extW rSim [1, 2] none none true none
          false) = true ∧
     exceptIsSignatureError
        (RunModelResponse.validate extW rSim ("m") (.nested [[1, 2]])
          (.many [.U8]) (.nested [[1, 2]]) none none true none false)
        = true) ∧
    (UploadModelResponse.validate extW rSim [1, 2] none none true none true
        ≠ .error .sigSimulationMode ∧
     RunModelResponse.validate extW rSim ("m") (.nested [[1, 2]])
        (.many [.U8]) (.nested [[1, 2]]) none none true none true
        ≠ .error .sigSimulationMode) :=
  claim_C3 extW rSim [1, 2] ("m") (.nested [[1, 2]]) (.many [.U8])
    (.nested [[1, 2]]) none none true none rfl

/-- C10: validating a signed non-simulation-mode artifact with
`validate_quote := false` has the unstated precondition that the caller
supplies an `enclave_signing_key`.  Without it, both validators fail with
the python `AttributeError` of `None.verify(...)`, which lies outside the
spec's typed error taxonomy and is not a `SignatureError`; with it, every
failure of the remaining branch is one of the typed errors of the taxonomy
(for the run validator, given that the positional tensor/dtype pairing is
well-formed). -/
theorem claim_C10 (ext : Externals) (r : SignedResponse) (p sg : Bytes)
    (att : GetSgxQuoteWithCollateralReply) (mh : Bytes) (mid : String)
    (tensors : PyTensors) (dtype : PyDtypeArg) (shape : PyShapeArg)
    (pf : Option String) (pol : Option Policy) (allow : Bool)
    (hp : r.payload = some p) (hs : r.signature = some sg)
    (ha : r.attestation = some att) :
    (UploadModelResponse.validate ext r mh pf pol false none allow
        = .error .attributeError ∧
     RunModelResponse.validate ext r mid tensors dtype shape pf pol false none
        allow = .error .attributeError ∧
     inSpecTaxonomy .attributeError = false ∧
     isSignatureError .attributeError = false) ∧
    (∀ (k : Ed25519PublicKey) (e : PyError),
      UploadModelResponse.validate ext r mh pf pol false (some k) allow
          = .error e → inSpecTaxonomy e = true) ∧
    (∀ (k : Ed25519PublicKey) (bs : Bytes) (e : PyError),
      serializeAllJoin tensors.normalize dtype.normalize = .ok bs →
      RunModelResponse.validate ext r mid tensors dtype shape pf pol false
          (some k) allow = .error e → inSpecTaxonomy e = true) := by
  refine ⟨⟨?_, ?_, rfl, rfl⟩, ?_, ?_⟩
  · exact uploadValidate_hw_nokey ext r p sg att mh pf pol allow hp hs ha
  · exact runValidate_hw_nokey ext r p sg att mid tensors dtype shape pf pol
      allow hp hs ha
  · intro k e he
    rw [uploadValidate_hw_noquote ext r p sg att k mh pf pol allow hp hs ha]
      at he
    by_cases hv : k.verify sg p = true
    · simp [hv] at he
      by_cases hm : mh = (ext.decodeSendModelPayload p).model_hash
      · simp [hm] at he
      · simp [hm] at he
        simp [← he, inSpecTaxonomy]
    · simp only [Bool.not_eq_true] at hv
      simp [hv] at he
      simp [← he, inSpecTaxonomy]
  · intro k bs e hbs he
    rw [runValidate_hw_noquote ext r p sg att k mid tensors dtype shape pf pol
      allow hp hs ha] at he
    by_cases hv : k.verify sg p = true
    · rw [hbs] at he
      simp only [hv, if_true] at he
      by_cases hh : ext.sha256 bs = (ext.decodeRunModelPayload p).input_hash
      · simp [hh] at he
        by_cases hm : mid = (ext.decodeRunModelPayload p).model_id
        · simp [hm] at he
        · simp [hm] at he
          simp [← he, inSpecTaxonomy]
      · simp [hh] at he
        simp [← he, inSpecTaxonomy]
    · simp only [Bool.not_eq_true] at hv
      simp [hv] at he
      simp [← he, inSpecTaxonomy]

/-- C10 witness at concrete inputs: without a supplied key the failure is the
out-of-taxonomy `AttributeError`; with a key, the concrete failure is the
typed `SignatureError("Invalid returned model_hash")`. -/
theorem claim_C10_witness :
    (UploadModelResponse.validate extW rW [1, 2] none none false none false
        = .error .attributeError ∧
     inSpecTaxonomy .attributeError = false) ∧
    inSpecTaxonomy .sigInvalidModelHash = true := by
  have h := claim_C10 extW rW [0] [1] attW [9, 9] ("m") (.nested [[1, 2]])
    (.many [.U8]) (.nested [[1, 2]]) none none false rfl rfl rfl
  exact ⟨⟨h.1.1, h.1.2.2.1⟩, h.2.1 keyTrue .sigInvalidModelHash rfl⟩

/-- C4: on a closed session every operation — `upload_model`, `run_model`,
`delete_model` — fails with the closed-connection error (the `ValueError`
the spec taxonomy names `InvalidStateError`) before touching the channel:
no transport event is emitted and the state is unchanged; and the closed
state is terminal and irreversible: after any of the four operations,
including `close`, the state is still closed. -/
theorem claim_C4 (ext : Externals) (fileData : Except PyError Bytes)
    (rpc1 rpc2 : Except RpcErr PbReply) (rpc3 : Except RpcErr Unit)
    (sign : Bool) (mid : String) (tensors : PyTensors) (dtype : PyDtypeArg)
    (shape : PyShapeArg) (s : ConnState) (h : s.closed = true) :
    BlindAiConnection.upload_model ext fileData rpc1 sign s
        = (.error .invalidState, s, []) ∧
    BlindAiConnection.run_model ext rpc2 mid tensors dtype shape sign s
        = (.error .invalidState, s, []) ∧
    BlindAiConnection.delete_model rpc3 s = (.error .invalidState, s, []) ∧
    (BlindAiConnection.upload_model ext fileData rpc1 sign s).2.1.closed
        = true ∧
    (BlindAiConnection.run_model ext rpc2 mid tensors dtype shape sign
        s).2.1.closed = true ∧
    (BlindAiConnection.delete_model rpc3 s).2.1.closed = true ∧
    (BlindAiConnection.close s).2.1.closed = true := by
  refine ⟨?_, ?_, ?_, ?_, ?_, ?_, ?_⟩ <;>
    simp [BlindAiConnection.upload_model, BlindAiConnection.run_model,
      BlindAiConnection.delete_model, BlindAiConnection.close,
      raise_exception_if_conn_closed, h]

/-- C4 witness at a concrete closed state: the three operations fail with the
closed-connection error without touching the channel; the state stays
closed after `close`. -/
theorem claim_C4_witness :
    BlindAiConnection.upload_model extW (.ok [1]) (.ok ⟨[0], [1]⟩) true sClosed
        = (.error .invalidState, sClosed, []) ∧
    BlindAiConnection.delete_model (.ok ()) sClosed
        = (.error .invalidState, sClosed, []) ∧
    (BlindAiConnection.close sClosed).2.1.closed = true := by
  have h := claim_C4 extW (.ok [1]) (.ok ⟨[0], [1]⟩) (.ok ⟨[0], [1]⟩) (.ok ())
    true ("m") (.nested [[1]]) (.many [.U8]) (.nested [[1]]) sClosed rfl
  exact ⟨h.1, h.2.2.1, h.2.2.2.2.2.2⟩

/-- C5 counterexample: the claim says a single `close()` clears all session
secrets — the enclave signing key, the attestation evidence and the policy.
On the concrete open state below, `close()` succeeds but the session still
holds the enclave signing key and the attestation evidence afterwards; only
the channel, stub, policy and server version are cleared. -/
theorem claim_C5_counterexample :
    (BlindAiConnection.close sOpen).1 = .ok () ∧
    (BlindAiConnection.close sOpen).2.1.closed = true ∧
    (BlindAiConnection.close sOpen).2.1.enclave_signing_key.isSome = true ∧
    (BlindAiConnection.close sOpen).2.1.attestation = some attW :=
  ⟨rfl, rfl, rfl, rfl⟩

/-- C5 amended: `close()` is idempotent — a call on an already-closed session
is a no-op and does not raise — and a single call on an open session (with a
live channel) releases the channel handle and clears the channel, stub,
policy and server version from the session state, while the enclave signing
key and the attestation evidence are retained, not cleared. -/
theorem claim_C5_amended (s : ConnState) :
    (s.closed = true → BlindAiConnection.close s = (.ok (), s, [])) ∧
    (∀ c : Nat, s.closed = false → s.channel = some c →
      (BlindAiConnection.close s).1 = .ok () ∧
      (BlindAiConnection.close s).2.1.closed = true ∧
      (BlindAiConnection.close s).2.1.channel = none ∧
      (BlindAiConnection.close s).2.1.stub = none ∧
      (BlindAiConnection.close s).2.1.policy = none ∧
      (BlindAiConnection.close s).2.1.server_version = none ∧
      (BlindAiConnection.close s).2.1.enclave_signing_key
          = s.enclave_signing_key ∧
      (BlindAiConnection.close s).2.1.attestation = s.attestation ∧
      (BlindAiConnection.close s).2.2 = [.closeChannel c] ∧
      BlindAiConnection.close ((BlindAiConnection.close s).2.1)
          = (.ok (), (BlindAiConnection.close s).2.1, [])) := by
  constructor
  · intro h
    simp [BlindAiConnection.close, h]
  · intro c h hc
    simp [BlindAiConnection.close, h, hc]

/-- C5 witness at a concrete open state: after one `close` the channel and
policy are cleared, the key is retained, and a second `close` is a no-op. -/
theorem claim_C5_witness :
    (BlindAiConnection.close sOpen).2.1.channel = none ∧
    (BlindAiConnection.close sOpen).2.1.policy = none ∧
    (BlindAiConnection.close sOpen).2.1.enclave_signing_key
        = sOpen.enclave_signing_key ∧
    BlindAiConnection.close ((BlindAiConnection.close sOpen).2.1)
        = (.ok (), (BlindAiConnection.close sOpen).2.1, []) := by
  have h := (claim_C5_amended sOpen).2 7 rfl rfl
  exact ⟨h.2.2.1, h.2.2.2.2.1, h.2.2.2.2.2.2.1, h.2.2.2.2.2.2.2.2.2⟩

/-- Helper: bootstrap outcome when the pre-channel steps succeed and
`GetServerInfo` fails with an `RpcError`: the discovery channel is closed and
`ConnectionError` is raised. -/
theorem connectServer_getInfo_err (ext : Externals) (rpc : BootRpc)
    (simulation : Bool) (policyPath certPath : String) (e : RpcErr)
    (hinfo : rpc.getServerInfo = .error e)
    (hpre : preChannelOk ext simulation policyPath certPath = true) :
    BlindAiConnection.connectServer ext rpc simulation policyPath certPath
      = (.error .connectionError,
         [.openChannel 0, .rpcGetServerInfo, .closeChannel 0]) := by
  cases simulation with
  | true =>
    simp only [preChannelOk, if_true] at hpre
    cases hssl : ext.ssl_get_server_certificate with
    | error e2 => rw [hssl] at hpre; simp [exceptOk] at hpre
    | ok c => simp [BlindAiConnection.connectServer, hssl, hinfo]
  | false =>
    simp only [preChannelOk, if_false, Bool.and_eq_true] at hpre
    cases hpol : ext.policy_from_file policyPath with
    | error e2 => rw [hpol] at hpre; simp [exceptOk] at hpre
    | ok pol =>
      cases hcert : ext.read_cert_file certPath with
      | error e2 => rw [hcert] at hpre; simp [exceptOk] at hpre
      | ok cb => simp [BlindAiConnection.connectServer, hpol, hcert, hinfo]

/-- Helper: bootstrap outcome when the pre-channel steps succeed,
`GetServerInfo` answers, and the advertised version is unsupported: a
`VersionError` with the discovery channel left open. -/
theorem connectServer_version_err (ext : Externals) (rpc : BootRpc)
    (simulation : Bool) (policyPath certPath : String) (info : ServerInfo)
    (hinfo : rpc.getServerInfo = .ok info)
    (hver : ext.supported_server_version info.version = false)
    (hpre : preChannelOk ext simulation policyPath certPath = true) :
    BlindAiConnection.connectServer ext rpc simulation policyPath certPath
      = (.error .versionError, [.openChannel 0, .rpcGetServerInfo]) := by
  cases simulation with
  | true =>
    simp only [preChannelOk, if_true] at hpre
    cases hssl : ext.ssl_get_server_certificate with
    | error e2 => rw [hssl] at hpre; simp [exceptOk] at hpre
    | ok c => simp [BlindAiConnection.connectServer, hssl, hinfo, hver]
  | false =>
    simp only [preChannelOk, if_false, Bool.and_eq_true] at hpre
    cases hpol : ext.policy_from_file policyPath with
    | error e2 => rw [hpol] at hpre; simp [exceptOk] at hpre
    | ok pol =>
      cases hcert : ext.read_cert_file certPath with
      | error e2 => rw [hcert] at hpre; simp [exceptOk] at hpre
      | ok cb =>
        simp [BlindAiConnection.connectServer, hpol, hcert, hinfo, hver]

/-- Helper: simulation-mode bootstrap outcome when `GetCertificate` fails
with an `RpcError`: the discovery channel is closed and `ConnectionError` is
raised. -/
theorem connectServer_getCert_err (ext : Externals) (rpc : BootRpc)
    (policyPath certPath : String) (info : ServerInfo) (e : RpcErr)
    (hinfo : rpc.getServerInfo = .ok info)
    (hver : ext.supported_server_version info.version = true)
    (hcert : rpc.getCertificate = .error e)
    (hpre : preChannelOk ext true policyPath certPath = true) :
    BlindAiConnection.connectServer ext rpc true policyPath certPath
      = (.error .connectionError,
         [.openChannel 0, .rpcGetServerInfo, .rpcGetCertificate,
          .closeChannel 0]) := by
  simp only [preChannelOk, if_true] at hpre
  cases hssl : ext.ssl_get_server_certificate with
  | error e2 => rw [hssl] at hpre; simp [exceptOk] at hpre
  | ok c =>
    simp [BlindAiConnection.connectServer, hssl, hinfo, hver, hcert]

/-- Helper: hardware-mode bootstrap outcome when the quote fetch fails with
an `RpcError`: the discovery channel is closed and `ConnectionError` is
raised. -/
theorem connectServer_getQuote_err (ext : Externals) (rpc : BootRpc)
    (policyPath certPath : String) (info : ServerInfo) (e : RpcErr)
    (hinfo : rpc.getServerInfo = .ok info)
    (hver : ext.supported_server_version info.version = true)
    (hq : rpc.getSgxQuoteWithCollateral = .error e)
    (hpre : preChannelOk ext false policyPath certPath = true) :
    BlindAiConnection.connectServer ext rpc false policyPath certPath
      = (.error .connectionError,
         [.openChannel 0, .rpcGetServerInfo, .rpcGetSgxQuote,
          .closeChannel 0]) := by
  simp only [preChannelOk, if_false, Bool.and_eq_true] at hpre
  cases hpol : ext.policy_from_file policyPath with
  | error e2 => rw [hpol] at hpre; simp [exceptOk] at hpre
  | ok pol =>
    cases hcert : ext.read_cert_file certPath with
    | error e2 => rw [hcert] at hpre; simp [exceptOk] at hpre
    | ok cb =>
      simp [BlindAiConnection.connectServer, hpol, hcert, hinfo, hver, hq]

/-- Helper: hardware-mode bootstrap outcome when the DCAP verification of a
fetched quote fails: the attestation error propagates and the discovery
channel is left open. -/
theorem connectServer_dcap_err (ext : Externals) (rpc : BootRpc)
    (policyPath certPath : String) (info : ServerInfo)
    (att : GetSgxQuoteWithCollateralReply) (e : PyError)
    (hinfo : rpc.getServerInfo = .ok info)
    (hver : ext.supported_server_version info.version = true)
    (hq : rpc.getSgxQuoteWithCollateral = .ok att)
    (hd : ext.verify_dcap_attestation att = .error e)
    (hpre : preChannelOk ext false policyPath certPath = true) :
    BlindAiConnection.connectServer ext rpc false policyPath certPath
      = (.error e,
         [.openChannel 0, .rpcGetServerInfo, .rpcGetSgxQuote]) := by
  simp only [preChannelOk, if_false, Bool.and_eq_true] at hpre
  cases hpol : ext.policy_from_file policyPath with
  | error e2 => rw [hpol] at hpre; simp [exceptOk] at hpre
  | ok pol =>
    cases hcert : ext.read_cert_file certPath with
    | error e2 => rw [hcert] at hpre; simp [exceptOk] at hpre
    | ok cb =>
      simp [BlindAiConnection.connectServer, hpol, hcert, hinfo, hver, hq, hd]

/-- C6: when the pre-channel steps succeed and the server reports a version
the client's supported-version predicate rejects, bootstrap fails with
`VersionError` right after the single `GetServerInfo` call, before any
attested channel is opened, and is not retried: the complete transport
trace is exactly one discovery-channel open followed by one
`GetServerInfo`. -/
theorem claim_C6 (ext : Externals) (rpc : BootRpc) (simulation : Bool)
    (policyPath certPath : String) (info : ServerInfo)
    (hinfo : rpc.getServerInfo = .ok info)
    (hver : ext.supported_server_version info.version = false)
    (hpre : preChannelOk ext simulation policyPath certPath = true) :
    (BlindAiConnection.connectServer ext rpc simulation policyPath certPath).1
        = .error .versionError ∧
    (BlindAiConnection.connectServer ext rpc simulation policyPath certPath).2
        = [.openChannel 0, .rpcGetServerInfo] ∧
    Ev.openChannel 1 ∉
      (BlindAiConnection.connectServer ext rpc simulation policyPath
        certPath).2 := by
  have hmain := connectServer_version_err ext rpc simulation policyPath
    certPath info hinfo hver hpre
  refine ⟨by rw [hmain], by rw [hmain], by rw [hmain]; decide⟩

/-- C6 witness: against a concrete server advertising a version the concrete
predicate rejects, bootstrap fails with `VersionError` with exactly the
discovery-open and `GetServerInfo` events. -/
theorem claim_C6_witness :
    (BlindAiConnection.connectServer extW rpcW true ("p") ("c")).1
        = .error .versionError ∧
    (BlindAiConnection.connectServer extW rpcW true ("p") ("c")).2
        = [.openChannel 0, .rpcGetServerInfo] :=
  have h := claim_C6 extW rpcW true ("p") ("c") ⟨("1.0")⟩ rfl rfl rfl
  ⟨h.1, h.2.1⟩

/-- C7 counterexample: the claim says that on every bootstrap failure after a
channel has been opened — transport failure, version mismatch, attestation
failure — all partially-opened channels are closed before the error
propagates.  On the concrete run below the version check fails after the
discovery channel was opened, the error propagates as `VersionError`, and
the discovery channel is never closed: the handle leaks because the
source's `except` clause only catches `RpcError`. -/
theorem claim_C7_counterexample :
    (BlindAiConnection.connectServer extW rpcW true ("p") ("c")).1
        = .error .versionError ∧
    Ev.openChannel 0 ∈
      (BlindAiConnection.connectServer extW rpcW true ("p") ("c")).2 ∧
    Ev.closeChannel 0 ∉
      (BlindAiConnection.connectServer extW rpcW true ("p") ("c")).2 :=
  ⟨rfl, by decide, by decide⟩

/-- C7 amended: on every bootstrap failure caused by a transport-level
`RpcError` after the discovery channel has been opened (`GetServerInfo`,
`GetCertificate`, `GetSgxQuoteWithCollateral`), the opened channel is closed
before `ConnectionError` propagates, so no handle leaks on those paths; but
a version mismatch or a DCAP attestation failure propagates without closing
the already-opened discovery channel. -/
theorem claim_C7_amended (ext : Externals) (rpc : BootRpc) (simulation : Bool)
    (policyPath certPath : String)
    (hpre : preChannelOk ext simulation policyPath certPath = true) :
    (∀ e : RpcErr, rpc.getServerInfo = .error e →
      BlindAiConnection.connectServer ext rpc simulation policyPath certPath
        = (.error .connectionError,
           [.openChannel 0, .rpcGetServerInfo, .closeChannel 0])) ∧
    (∀ (info : ServerInfo) (e : RpcErr), simulation = true →
      rpc.getServerInfo = .ok info →
      ext.supported_server_version info.version = true →
      rpc.getCertificate = .error e →
      BlindAiConnection.connectServer ext rpc simulation policyPath certPath
        = (.error .connectionError,
           [.openChannel 0, .rpcGetServerInfo, .rpcGetCertificate,
            .closeChannel 0])) ∧
    (∀ (info : ServerInfo) (e : RpcErr), simulation = false →
      rpc.getServerInfo = .ok info →
      ext.supported_server_version info.version = true →
      rpc.getSgxQuoteWithCollateral = .error e →
      BlindAiConnection.connectServer ext rpc simulation policyPath certPath
        = (.error .connectionError,
           [.openChannel 0, .rpcGetServerInfo, .rpcGetSgxQuote,
            .closeChannel 0])) ∧
    (∀ info : ServerInfo, rpc.getServerInfo = .ok info →
      ext.supported_server_version info.version = false →
      Ev.closeChannel 0 ∉
        (BlindAiConnection.connectServer ext rpc simulation policyPath
          certPath).2) ∧
    (∀ (info : ServerInfo) (att : GetSgxQuoteWithCollateralReply)
        (e : PyError), simulation = false →
      rpc.getServerInfo = .ok info →
      ext.supported_server_version info.version = true →
      rpc.getSgxQuoteWithCollateral = .ok att →
      ext.verify_dcap_attestation att = .error e →
      (BlindAiConnection.connectServer ext rpc simulation policyPath
          certPath).1 = .error e ∧
      Ev.closeChannel 0 ∉
        (BlindAiConnection.connectServer ext rpc simulation policyPath
          certPath).2) := by
  refine ⟨?_, ?_, ?_, ?_, ?_⟩
  · intro e hinfo
    exact connectServer_getInfo_err ext rpc simulation policyPath certPath e
      hinfo hpre
  · intro info e hsim hinfo hver hcert
    subst hsim
    exact connectServer_getCert_err ext rpc policyPath certPath info e hinfo
      hver hcert hpre
  · intro info e hsim hinfo hver hq
    subst hsim
    exact connectServer_getQuote_err ext rpc policyPath certPath info e hinfo
      hver hq hpre
  · intro info hinfo hver
    rw [connectServer_version_err ext rpc simulation policyPath certPath info
      hinfo hver hpre]
    decide
  · intro info att e hsim hinfo hver hq hd
    subst hsim
    rw [connectServer_dcap_err ext rpc policyPath certPath info att e hinfo
      hver hq hd hpre]
    refine ⟨rfl, ?_⟩
    show Ev.closeChannel 0 ∉
      [Ev.openChannel 0, Ev.rpcGetServerInfo, Ev.rpcGetSgxQuote]
    decide

/-- C7 witness: with a concrete failing `GetServerInfo`, the discovery
channel is opened and then closed before `ConnectionError` propagates. -/
theorem claim_C7_witness :
    BlindAiConnection.connectServer extW rpcInfoErr true ("p") ("c")
      = (.error .connectionError,
         [.openChannel 0, .rpcGetServerInfo, .closeChannel 0]) :=
  (claim_C7_amended extW rpcInfoErr true ("p") ("c") rfl).1 ⟨0⟩ rfl
